import Mathlib

/-!
Verification of the FSI-AgentGov-Solutions provisioning scripts.

Shallow embedding of the Python scripts in this repository:
  * `export_quarterly_evidence.py` — quarterly evidence export with SHA-256
    manifests (the hash primitive `hashlib.sha256` is a library call; it is
    modelled as an arbitrary fixed function `sha256hex : String → String`,
    and every theorem quantifies over it),
  * `scripts/hooks/boundary-check.py` — the shell-command boundary filter,
  * `pipeline-governance-cleanup/scripts/hooks/boundary-check.py` — the
    pass-through hook,
  * `deploy_mcg.py` — the Dataverse client (429 retry loop, publisher and
    table idempotency checks),
  * `create_dataverse_schema.py` — the ELM schema deployment procedure,
  * `verify_role_privileges.py` — role-privilege verification,
  * exit-code dispatch of the CLI entry points.

Remote Dataverse state is modelled explicitly as the collections the
scripts query and mutate; HTTP is modelled by the response data the code
inspects.  `json.dumps` (a library call) is re-implemented faithfully for
the value shapes the scripts serialize (`indent=2` and default modes).
-/

namespace FSIAgentGov

/-! ## Python JSON values and `json.dumps` -/

/-- JSON values as produced by the scripts (Python dicts keep insertion
order, so objects are ordered association lists). -/
inductive PyJson where
  | null
  | bool (b : Bool)
  | int (n : Int)
  | str (s : String)
  | arr (xs : List PyJson)
  | obj (kvs : List (String × PyJson))
deriving Repr

/-- Lower-case hexadecimal digit. -/
def hexDigit (n : Nat) : Char :=
  if n < 10 then Char.ofNat (48 + n) else Char.ofNat (87 + (n - 10))

/-- Escaping of one character inside a JSON string literal, as done by
Python `json.dumps` with the default `ensure_ascii=True`. -/
def escChar (c : Char) : List Char :=
  if c = '"' then ['\\', '"']
  else if c = '\\' then ['\\', '\\']
  else if c = '\n' then ['\\', 'n']
  else if c = '\t' then ['\\', 't']
  else if c = '\r' then ['\\', 'r']
  else if c.toNat < 32 || c.toNat > 126 then
    ['\\', 'u', hexDigit (c.toNat / 4096 % 16), hexDigit (c.toNat / 256 % 16),
     hexDigit (c.toNat / 16 % 16), hexDigit (c.toNat % 16)]
  else [c]

/-- A JSON string literal with quotes and escapes. -/
def pyQuote (s : String) : String :=
  ⟨'"' :: (s.data.flatMap escChar) ++ ['"']⟩

/-- `n` spaces. -/
def nspaces (n : Nat) : String := ⟨List.replicate n ' '⟩

mutual

/-- Python `json.dumps(value, indent=ind)`: `ind = none` is the default
single-line form with `", "` and `": "` separators; `ind = some w` is the
indented form (item separator `","` + newline, empty containers stay on
one line). `lvl` is the current nesting level. -/
def pyDumpsVal (ind : Option Nat) (lvl : Nat) : PyJson → String
  | .null => "null"
  | .bool true => "true"
  | .bool false => "false"
  | .int n => toString n
  | .str s => pyQuote s
  | .arr [] => "[]"
  | .arr (x :: xs) =>
    match ind with
    | none => "[" ++ String.intercalate ", " (pyDumpsItems none 0 (x :: xs)) ++ "]"
    | some w =>
      "[\n" ++ nspaces (w * (lvl + 1)) ++
        String.intercalate (",\n" ++ nspaces (w * (lvl + 1)))
          (pyDumpsItems (some w) (lvl + 1) (x :: xs)) ++
        "\n" ++ nspaces (w * lvl) ++ "]"
  | .obj [] => "\x7b\x7d"
  | .obj (kv :: kvs) =>
    match ind with
    | none => "\x7b" ++ String.intercalate ", " (pyDumpsPairs none 0 (kv :: kvs)) ++ "\x7d"
    | some w =>
      "\x7b\n" ++ nspaces (w * (lvl + 1)) ++
        String.intercalate (",\n" ++ nspaces (w * (lvl + 1)))
          (pyDumpsPairs (some w) (lvl + 1) (kv :: kvs)) ++
        "\n" ++ nspaces (w * lvl) ++ "\x7d"

/-- Serialized forms of the elements of an array. -/
def pyDumpsItems (ind : Option Nat) (lvl : Nat) : List PyJson → List String
  | [] => []
  | x :: xs => pyDumpsVal ind lvl x :: pyDumpsItems ind lvl xs

/-- Serialized `"key": value` forms of the entries of an object. -/
def pyDumpsPairs (ind : Option Nat) (lvl : Nat) : List (String × PyJson) → List String
  | [] => []
  | (k, v) :: kvs => (pyQuote k ++ ": " ++ pyDumpsVal ind lvl v) :: pyDumpsPairs ind lvl kvs

end

/-- `json.dumps` at top level. -/
def pyDumps (ind : Option Nat) (j : PyJson) : String := pyDumpsVal ind 0 j

/-- Lookup of a key in a JSON object (first match, as in a Python dict). -/
def objGet (j : PyJson) (key : String) : Option PyJson :=
  match j with
  | .obj kvs => (kvs.find? (fun kv => kv.1 = key)).map (·.2)
  | _ => none

/-- Python `d[key] = v` for a key not yet present: dicts append new keys
in insertion order. -/
def objSetNew (j : PyJson) (key : String) (v : PyJson) : PyJson :=
  match j with
  | .obj kvs => .obj (kvs ++ [(key, v)])
  | other => other

/-! ## `export_quarterly_evidence.py` -/

/-- `calculate_sha256(content)`: `hashlib.sha256` is a library primitive,
modelled by the ambient function `sha256hex`. -/
def calculate_sha256 (sha256hex : String → String) (content : String) : String :=
  sha256hex content

/-- `get_quarter(date)`: `f"Q{(date.month - 1) // 3 + 1}"`. -/
def get_quarter (month : Nat) : String :=
  "Q" ++ toString ((month - 1) / 3 + 1)

/-- The CLI arguments of the export script that reach the success path
(dates already validated by `datetime.strptime`). -/
structure ExportArgs where
  environmentUrl : String
  startDate : String
  endDate : String
  /-- month of the parsed `--start-date` -/
  startMonth : Nat
  /-- year of the parsed `--start-date` -/
  startYear : Nat

/-- One entry of `manifest["files"]`. -/
structure FileEntry where
  name : String
  table : String
  recordCount : Nat
  sha256 : String
  isEmpty : Bool

/-- The dict appended to `manifest["files"]`. -/
def fileEntryJson (e : FileEntry) : PyJson :=
  .obj [("name", .str e.name), ("table", .str e.table),
        ("recordCount", .int e.recordCount), ("sha256", .str e.sha256),
        ("isEmpty", .bool e.isEmpty)]

/-- Everything `main` computes and writes on its success path. -/
structure ExportResult where
  requestsFilename : String
  requestsContent : String
  requestsHash : String
  requestsEntry : FileEntry
  /-- the `WARNING: No EnvironmentRequest records found` branch was taken -/
  requestsEmptyWarning : Bool
  logsFilename : String
  logsContent : String
  logsHash : String
  logsEntry : FileEntry
  logsEmptyWarning : Bool
  /-- the manifest dict before `manifest["manifestHash"]` is assigned -/
  manifestBase : PyJson
  /-- the value stored under `manifestHash` -/
  manifestStoredHash : String
  /-- the content written to `manifest.json` -/
  manifestContent : String
  exitCode : Nat

/-- The success path of `main` in `export_quarterly_evidence.py`
(lines 173–297): the two table queries have returned `requests_data` and
`logs_data`; `exportDate` is `datetime.now(timezone.utc)` rendered, an
input of the run.  Record dicts are `PyJson` values. -/
def export_quarterly_main (sha256hex : String → String) (exportDate : String)
    (args : ExportArgs) (requests_data logs_data : List PyJson) : ExportResult :=
  let quarter := get_quarter args.startMonth
  let year := args.startYear
  let requests_count := requests_data.length
  let requests_filename := "EnvironmentRequest-" ++ toString year ++ "-" ++ quarter ++ ".json"
  let requests_content := pyDumps (some 2) (.arr requests_data)
  let requests_hash := calculate_sha256 sha256hex requests_content
  let requests_entry : FileEntry :=
    { name := requests_filename, table := "fsi_environmentrequest",
      recordCount := requests_count, sha256 := requests_hash,
      isEmpty := requests_count == 0 }
  let logs_count := logs_data.length
  let logs_filename := "ProvisioningLog-" ++ toString year ++ "-" ++ quarter ++ ".json"
  let logs_content := pyDumps (some 2) (.arr logs_data)
  let logs_hash := calculate_sha256 sha256hex logs_content
  let logs_entry : FileEntry :=
    { name := logs_filename, table := "fsi_provisioninglog",
      recordCount := logs_count, sha256 := logs_hash,
      isEmpty := logs_count == 0 }
  let manifest : PyJson :=
    .obj [("exportDate", .str exportDate),
          ("exportedBy", .str "export_quarterly_evidence.py"),
          ("environmentUrl", .str args.environmentUrl),
          ("dateRange", .obj [("start", .str args.startDate), ("end", .str args.endDate)]),
          ("files", .arr [fileEntryJson requests_entry, fileEntryJson logs_entry])]
  let manifest_content := pyDumps (some 2) manifest
  let manifest_hash := calculate_sha256 sha256hex manifest_content
  let manifest_final := objSetNew manifest "manifestHash" (.str manifest_hash)
  { requestsFilename := requests_filename
    requestsContent := requests_content
    requestsHash := requests_hash
    requestsEntry := requests_entry
    requestsEmptyWarning := requests_count == 0
    logsFilename := logs_filename
    logsContent := logs_content
    logsHash := logs_hash
    logsEntry := logs_entry
    logsEmptyWarning := logs_count == 0
    manifestBase := manifest
    manifestStoredHash := manifest_hash
    manifestContent := pyDumps (some 2) manifest_final
    exitCode := 0 }

/-! ## String helpers for `scripts/hooks/boundary-check.py`

The hook works on Python `str` values: we model Python's whitespace
class, substring test (`in`), `str.split()`, `str.strip`, `str.replace`
and the specific regular expressions the script uses. -/

/-- Python `\s` on ASCII text (space, tab, newline, carriage return,
vertical tab, form feed). -/
def isPySpace (c : Char) : Bool :=
  c == ' ' || c == '\t' || c == '\n' || c == '\r' || c == '\x0b' || c == '\x0c'

/-- Python `str.lower()` on one character (ASCII case mapping; the
commands and configured paths are ASCII). -/
def pyLowerChar (c : Char) : Char :=
  if 65 ≤ c.toNat && c.toNat ≤ 90 then Char.ofNat (c.toNat + 32) else c

/-- Python `str.lower()`. -/
def pyLower (s : String) : String := ⟨s.data.map pyLowerChar⟩

/-- `needle` is a prefix of `hay` (character lists). -/
def leadsWith : List Char → List Char → Bool
  | [], _ => true
  | _ :: _, [] => false
  | a :: as, b :: bs => a == b && leadsWith as bs

/-- Python `s.startswith(pre)`. -/
def pyStartsWith (s pre : String) : Bool := leadsWith pre.data s.data

/-- `needle` occurs somewhere in `hay`. -/
def occursWithin (needle : List Char) : List Char → Bool
  | [] => leadsWith needle []
  | c :: rest => leadsWith needle (c :: rest) || occursWithin needle rest

/-- Python `needle in hay` for strings. -/
def strContains (hay needle : String) : Bool := occursWithin needle.data hay.data

/-- Skip any further whitespace (maximal munch for `\s+`; adequate here
because every following pattern character is not whitespace). -/
def dropSpaces : List Char → List Char
  | [] => []
  | c :: cs => if isPySpace c then dropSpaces cs else c :: cs

/-- Match `\s+` (at least one whitespace character), returning the rest. -/
def spaces1 : List Char → Option (List Char)
  | [] => none
  | c :: cs => if isPySpace c then some (dropSpaces cs) else none

/-- `$` of Python `re` without `MULTILINE`: end of string or a final
newline. -/
def atEnd : List Char → Bool
  | [] => true
  | ['\n'] => true
  | _ => false

/-- Match `rm\s+-rf?\s+/$` (or, with `trailing`, `rm\s+-rf?\s+/\s*$`)
anchored at the start of `cs`. -/
def rmRootAt (trailing : Bool) (cs : List Char) : Bool :=
  match cs with
  | 'r' :: 'm' :: rest =>
    match spaces1 rest with
    | none => false
    | some rest2 =>
      match rest2 with
      | '-' :: 'r' :: rest3 =>
        let rest4 := match rest3 with
          | 'f' :: r => r
          | r => r
        match spaces1 rest4 with
        | none => false
        | some rest5 =>
          match rest5 with
          | '/' :: rest6 => if trailing then atEnd (dropSpaces rest6) else atEnd rest6
          | _ => false
      | _ => false
  | _ => false

/-- `re.search` for the `rm -rf /` patterns: try every start position. -/
def searchRmRoot (trailing : Bool) : List Char → Bool
  | [] => false
  | c :: cs => rmRootAt trailing (c :: cs) || searchRmRoot trailing cs

/-- The risky-pattern loop (lines 57–81, non-Windows): first match wins.
The `../../../../` regex is a literal substring; `re.IGNORECASE` is a
no-op on the already-lowercased command. -/
def riskyReport (command_lower : String) : Option String :=
  if strContains command_lower "../../../../" then some "Excessive parent directory traversal"
  else if searchRmRoot false command_lower.data then some "Recursive delete from root"
  else if searchRmRoot true command_lower.data then some "Recursive delete from root"
  else none

/-- Match `cd\s+["']?\.` anchored at the start of `cs`. -/
def cdDotAt (cs : List Char) : Bool :=
  match cs with
  | 'c' :: 'd' :: rest =>
    match spaces1 rest with
    | none => false
    | some rest2 =>
      match rest2 with
      | '"' :: '.' :: _ => true
      | '\'' :: '.' :: _ => true
      | '.' :: _ => true
      | _ => false
  | _ => false

/-- `re.search` for the `cd` safe pattern. -/
def searchCdDot : List Char → Bool
  | [] => false
  | c :: cs => cdDotAt (c :: cs) || searchCdDot cs

/-- Match `^word\s+`. -/
def prefixThenSpace : List Char → List Char → Bool
  | [], c :: _ => isPySpace c
  | [], [] => false
  | _ :: _, [] => false
  | a :: as, b :: bs => a == b && prefixThenSpace as bs

/-- The words of the anchored safe patterns (lines 86–98). -/
def SAFE_PATTERN_WORDS : List String :=
  ["git", "mkdocs", "python", "python3", "pip", "npm", "source", "which",
   "echo", "mkdir", "ls", "wc", "rm"]

/-- The safe-pattern loop (lines 84–118): `cd` to a relative path
anywhere in the command, or one of the anchored command words. -/
def matchesSafePattern (command_lower : String) : Bool :=
  searchCdDot command_lower.data ||
    SAFE_PATTERN_WORDS.any (fun w => prefixThenSpace w.data command_lower.data)

/-- Python `s.replace("\\", "/")` (single-character pattern, so a map). -/
def toUnixStyle (s : String) : String :=
  ⟨s.data.map (fun c => if c == '\\' then '/' else c)⟩

/-- Python `part.strip('"\'')`. -/
def stripQuotes (s : String) : String :=
  ⟨((s.data.dropWhile (fun c => c == '"' || c == '\'')).reverse.dropWhile
      (fun c => c == '"' || c == '\'')).reverse⟩

/-- Python `str.split()` with no arguments: split on whitespace runs,
discarding empty pieces. -/
def pySimpleSplitAux : List Char → List Char → List (List Char)
  | [], acc => if acc.isEmpty then [] else [acc.reverse]
  | c :: cs, acc =>
    if isPySpace c then
      if acc.isEmpty then pySimpleSplitAux cs [] else acc.reverse :: pySimpleSplitAux cs []
    else pySimpleSplitAux cs (c :: acc)

/-- Lexer modes of the shlex model. -/
inductive ShMode where
  | normal
  | single
  | double

/-- Modelled from the library call `shlex.split` (POSIX mode):
whitespace separates tokens, single/double quotes group, a backslash
escapes the next character (inside double quotes only `"` and `\`);
`none` models the `ValueError` raised on an unterminated quote or
escape.  `cur = some acc` means a token is in progress (characters in
reverse). -/
def shlexRun : List Char → ShMode → Option (List Char) → Option (List (List Char))
  | [], .normal, none => some []
  | [], .normal, some acc => some [acc.reverse]
  | [], .single, _ => none
  | [], .double, _ => none
  | c :: cs, .normal, cur =>
    if isPySpace c then
      match cur with
      | none => shlexRun cs .normal none
      | some acc => (shlexRun cs .normal none).map (acc.reverse :: ·)
    else if c == '\'' then shlexRun cs .single (some (cur.getD []))
    else if c == '"' then shlexRun cs .double (some (cur.getD []))
    else if c == '\\' then
      match cs with
      | [] => none
      | d :: ds => shlexRun ds .normal (some (d :: cur.getD []))
    else shlexRun cs .normal (some (c :: cur.getD []))
  | c :: cs, .single, cur =>
    match cur with
    | none => none
    | some acc =>
      if c == '\'' then shlexRun cs .normal (some acc)
      else shlexRun cs .single (some (c :: acc))
  | c :: cs, .double, cur =>
    match cur with
    | none => none
    | some acc =>
      if c == '"' then shlexRun cs .normal (some acc)
      else if c == '\\' then
        match cs with
        | [] => none
        | d :: ds =>
          if d == '"' || d == '\\' then shlexRun ds .double (some (d :: acc))
          else shlexRun ds .double (some (d :: '\\' :: acc))
      else shlexRun cs .double (some (c :: acc))

/-- Lines 124–129: `shlex.split(command_lower)`, falling back to
`command_lower.split()` on a `ValueError`. -/
def shlexSplitLower (command_lower : String) : List String :=
  match shlexRun command_lower.data .normal none with
  | some toks => toks.map (fun t => ⟨t⟩)
  | none => (pySimpleSplitAux command_lower.data []).map (fun t => ⟨t⟩)

/-! ## `scripts/hooks/boundary-check.py` — `check_command` -/

/-- The module-level configuration of the hook: `PROJECT_ROOT` is derived
from the script location, `FRAMEWORK_ROOT` is the sibling `FSI-AgentGov`
directory, `CLAUDE_GLOBAL_DIR` is the expanded `~/.claude`.  All are
environment-derived inputs of the function. -/
structure BoundaryConfig where
  projectRoot : String
  frameworkRoot : String
  claudeGlobalDir : String

/-- Lines 131–144 (the loop over `command_parts`): some shlex part of the
command, quotes stripped, starts with `/` but with none of the three
allowed roots. -/
def containsDisallowedAbsolutePath (cfg : BoundaryConfig) (command : String) : Bool :=
  let command_lower := pyLower command
  (shlexSplitLower command_lower).any (fun part =>
    let part_clean := stripQuotes part
    pyStartsWith part_clean "/" &&
      !(pyStartsWith part_clean (pyLower cfg.projectRoot) ||
        pyStartsWith part_clean (pyLower cfg.frameworkRoot) ||
        pyStartsWith part_clean (pyLower cfg.claudeGlobalDir)))

/-- `check_command` (lines 48–157) on a non-Windows platform
(`IS_WINDOWS = False`, so the Windows-only risky patterns and the
Windows absolute-path regex are inactive).  Returns
`(allow, reason)`. -/
def check_command (cfg : BoundaryConfig) (command : String) : Bool × String :=
  let command_lower := pyLower command
  let project_lower := pyLower cfg.projectRoot
  match riskyReport command_lower with
  | some reason => (false, reason)
  | none =>
    if strContains command_lower project_lower ||
        strContains command_lower (pyLower (toUnixStyle cfg.projectRoot)) then
      (true, "Command explicitly targets project directory")
    else
      let framework_lower := pyLower cfg.frameworkRoot
      if strContains command_lower framework_lower ||
          strContains command_lower (pyLower (toUnixStyle cfg.frameworkRoot)) then
        (true, "Command targets companion Framework repository")
      else
        let claude_global_lower := pyLower cfg.claudeGlobalDir
        if strContains command_lower claude_global_lower ||
            strContains command_lower (pyLower (toUnixStyle cfg.claudeGlobalDir)) then
          (true, "Command targets Claude global directory")
        else if matchesSafePattern command_lower then
          (true, "Command matches safe pattern")
        else if !containsDisallowedAbsolutePath cfg command then
          (true, "No disallowed absolute paths detected")
        else if strContains command_lower project_lower ||
            strContains command_lower framework_lower ||
            strContains command_lower claude_global_lower then
          (true, "Command targets allowed directory")
        else
          (true, "Command allowed by default")

/-! ## `pipeline-governance-cleanup/scripts/hooks/boundary-check.py` -/

/-- `main` of the pipeline-governance-cleanup hook: prints
`json.dumps({"decision": "allow"})` and exits 0, without reading the
input at all.  Returns (stdout line, exit code). -/
def pgc_boundary_hook_main (_stdin_data : String) : String × Nat :=
  (pyDumps none (.obj [("decision", .str "allow")]), 0)

/-! ## `deploy_mcg.py` — `DataverseClient._request` retry loop -/

/-- The response data `_request` inspects: the status code and the
`Retry-After` header (absent means the default of 30 is used). -/
structure HttpResponse where
  status : Nat
  retryAfter : Option Nat
deriving Repr, DecidableEq

/-- The body of `for attempt in range(3)` in `_request` (lines 805–816):
`fuel` is the number of remaining loop iterations, `attempt` the current
index, `waits` the sleeps performed so far.  A 429 sleeps
`int(Retry-After, default 30)` and continues; anything else is returned;
exhausting the loop raises. -/
def request_attempts (responses : Nat → HttpResponse) :
    Nat → Nat → List Nat → Except String (HttpResponse × List Nat)
  | 0, _, _ => .error "Max retries exceeded due to rate limiting"
  | fuel + 1, attempt, waits =>
    let response := responses attempt
    if response.status = 429 then
      let retry_after := response.retryAfter.getD 30
      request_attempts responses fuel (attempt + 1) (waits ++ [retry_after])
    else .ok (response, waits)

/-- `DataverseClient._request`, with the environment modelled as the
response the server gives to the i-th attempt.  Returns the delivered
response together with the list of sleeps, or the rate-limit error. -/
def dataverse_request (responses : Nat → HttpResponse) :
    Except String (HttpResponse × List Nat) :=
  request_attempts responses 3 0 []

/-! ## `deploy_mcg.py` — publisher and table idempotency

The remote Dataverse metadata the two functions query and mutate,
keyed by the natural keys the code uses (`customizationprefix` for
publishers, `LogicalName` for entity definitions). -/

structure McgState where
  /-- existing publishers as (customizationprefix, publisherid) -/
  publishers : List (String × String)
  /-- `LogicalName`s of existing `EntityDefinitions` -/
  entityDefs : List String
deriving DecidableEq, Repr

/-- `PUBLISHER_CONFIG["customizationprefix"]`. -/
def MCG_PUBLISHER_PREFIX : String := "mcg"

/-- `DataverseClient.get_or_create_publisher` (lines 837–861): GET
`publishers?$filter=customizationprefix eq 'mcg'`; if the result has a
value, return `value[0].publisherid` without POSTing; otherwise POST the
publisher (the platform assigns `newId`, read back from the
`OData-EntityId` header).  Returns (state, publisherid, POST issued?). -/
def get_or_create_publisher (newId : String) (s : McgState) :
    McgState × String × Bool :=
  match s.publishers.find? (fun p => p.1 = MCG_PUBLISHER_PREFIX) with
  | some p => (s, p.2, false)
  | none =>
    ({ s with publishers := s.publishers ++ [(MCG_PUBLISHER_PREFIX, newId)] },
     newId, true)

/-- `DataverseClient.create_table` (lines 887–940): GET
`EntityDefinitions(LogicalName='...')`; if the response carries a
`LogicalName` the table already exists and the function returns without
POSTing; otherwise POST the new entity definition.  Returns
(state, POST issued?). -/
def mcg_create_table (table_logical_name : String) (s : McgState) :
    McgState × Bool :=
  if s.entityDefs.contains table_logical_name then (s, false)
  else ({ s with entityDefs := s.entityDefs ++ [table_logical_name] }, true)

/-! ## `create_dataverse_schema.py` — the ELM schema deployment -/

/-- The remote Dataverse metadata state the ELM schema deployment
queries and mutates through `ELMClient`: global option sets by name,
entities by logical name, attributes by (entity, attribute logical
name). -/
structure DataverseState where
  optionsets : List String
  entities : List String
  attributes : List (String × String)
deriving DecidableEq, Repr

/-- The keys of the `OPTIONSETS` dict, in definition order. -/
def OPTIONSET_NAMES : List String :=
  ["fsi_er_state", "fsi_er_zone", "fsi_er_environmenttype", "fsi_er_region",
   "fsi_er_datasensitivity", "fsi_er_expectedusers", "fsi_pl_action",
   "fsi_pl_actortype"]

/-- `ELMClient.get_global_optionset`: the GET returns metadata (truthy)
exactly when the option set exists. -/
def get_global_optionset (s : DataverseState) (name : String) : Bool :=
  s.optionsets.contains name

/-- `ELMClient.create_global_optionset`: POST the definition. -/
def create_global_optionset (s : DataverseState) (name : String) : DataverseState :=
  { s with optionsets := s.optionsets ++ [name] }

/-- `ELMClient.get_entity_metadata`: truthy exactly when the entity
exists. -/
def get_entity_metadata (s : DataverseState) (name : String) : Bool :=
  s.entities.contains name

/-- `ELMClient.create_entity`. -/
def create_entity (s : DataverseState) (name : String) : DataverseState :=
  { s with entities := s.entities ++ [name] }

/-- `ELMClient.get_attribute_metadata`. -/
def get_attribute_metadata (s : DataverseState) (entity col : String) : Bool :=
  s.attributes.contains (entity, col)

/-- `ELMClient.create_attribute`. -/
def create_attribute (s : DataverseState) (entity col : String) : DataverseState :=
  { s with attributes := s.attributes ++ [(entity, col)] }

/-- The `for name, definition in OPTIONSETS.items()` loop of
`create_optionsets` (lines 144–158): existing → skip; dry run → report
only; else create.  `created` collects the names actually POSTed. -/
def create_optionsets_loop (dry_run : Bool) :
    List String → DataverseState → List String → DataverseState × List String
  | [], s, created => (s, created)
  | name :: rest, s, created =>
    if get_global_optionset s name then
      create_optionsets_loop dry_run rest s created
    else if dry_run then
      create_optionsets_loop dry_run rest s created
    else
      create_optionsets_loop dry_run rest (create_global_optionset s name)
        (created ++ [name])

/-- `create_optionsets(client, dry_run)`. -/
def create_optionsets (s : DataverseState) (dry_run : Bool) :
    DataverseState × List String :=
  create_optionsets_loop dry_run OPTIONSET_NAMES s []

/-- One table block of `create_tables` (lines 464–488): exists → report;
dry run → report; else create. -/
def create_tables_step (dry_run : Bool) (name : String)
    (acc : DataverseState × List String) : DataverseState × List String :=
  if get_entity_metadata acc.1 name then acc
  else if dry_run then acc
  else (create_entity acc.1 name, acc.2 ++ [name])

/-- `create_tables(client, dry_run)`: the EnvironmentRequest block, then
the ProvisioningLog block. -/
def create_tables (s : DataverseState) (dry_run : Bool) :
    DataverseState × List String :=
  create_tables_step dry_run "fsi_provisioninglog"
    (create_tables_step dry_run "fsi_environmentrequest" (s, []))

/-- `col["SchemaName"].lower()` for `ENVIRONMENT_REQUEST_COLUMNS`. -/
def ER_COLUMN_NAMES : List String :=
  ["fsi_environmentname", "fsi_environmenttype", "fsi_region",
   "fsi_businessjustification", "fsi_zone", "fsi_zonerationale",
   "fsi_zoneautoflags", "fsi_datasensitivity", "fsi_expectedusers",
   "fsi_securitygroupid", "fsi_requester", "fsi_requestedon", "fsi_state",
   "fsi_approver", "fsi_approvedon", "fsi_approvalcomments",
   "fsi_environmentid", "fsi_environmenturl", "fsi_provisioningstarted",
   "fsi_provisioningcompleted"]

/-- `col["SchemaName"].lower()` for `PROVISIONING_LOG_COLUMNS`. -/
def PL_COLUMN_NAMES : List String :=
  ["fsi_environmentrequest", "fsi_sequence", "fsi_action",
   "fsi_actiondetails", "fsi_actor", "fsi_actortype", "fsi_timestamp",
   "fsi_success", "fsi_errormessage", "fsi_correlationid"]

/-- One `for col in COLUMNS` loop of `create_columns` (lines 491–519). -/
def create_columns_loop (dry_run : Bool) (entity : String) :
    List String → DataverseState → List (String × String) →
      DataverseState × List (String × String)
  | [], s, created => (s, created)
  | col :: rest, s, created =>
    if get_attribute_metadata s entity col then
      create_columns_loop dry_run entity rest s created
    else if dry_run then
      create_columns_loop dry_run entity rest s created
    else
      create_columns_loop dry_run entity rest (create_attribute s entity col)
        (created ++ [(entity, col)])

/-- `create_columns(client, dry_run)`. -/
def create_columns (s : DataverseState) (dry_run : Bool) :
    DataverseState × List (String × String) :=
  let r1 := create_columns_loop dry_run "fsi_environmentrequest" ER_COLUMN_NAMES s []
  create_columns_loop dry_run "fsi_provisioninglog" PL_COLUMN_NAMES r1.1 r1.2

/-- What one full run of `create_schema` POSTed. -/
structure SchemaReport where
  createdOptionsets : List String
  createdTables : List String
  createdColumns : List (String × String)
deriving DecidableEq, Repr

/-- `create_schema(client, dry_run)` (lines 522–545): option sets, then
tables, then columns. -/
def create_schema (s : DataverseState) (dry_run : Bool) :
    DataverseState × SchemaReport :=
  let r1 := create_optionsets s dry_run
  let r2 := create_tables r1.1 dry_run
  let r3 := create_columns r2.1 dry_run
  (r3.1, ⟨r1.2, r2.2, r3.2⟩)

/-! ## `verify_role_privileges.py` — `verify_role` -/

/-- privilege type → depth string, e.g. `"Write" ↦ "Organization"`. -/
abbrev PrivDict := List (String × String)

/-- entity → granted privileges, as built by `get_role_privileges`. -/
abbrev ActualPrivs := List (String × PrivDict)

/-- privilege type → expected depth (`none` = must not be granted). -/
abbrev ExpectedEntity := List (String × Option String)

/-- entity → expected privilege configuration. -/
abbrev ExpectedPrivs := List (String × ExpectedEntity)

/-- Python `dict.get` (dicts modelled as ordered association lists with
distinct keys; `find?` takes the first match). -/
def dictGet {α : Type} (d : List (String × α)) (k : String) : Option α :=
  (d.find? (fun kv => kv.1 = k)).map (·.2)

/-- The issues one (entity, privilege) pair contributes
(lines 194–215). -/
def privIssue (entity priv_type : String)
    (expected_depth actual_depth : Option String) : List String :=
  match expected_depth with
  | none =>
    match actual_depth with
    | some found =>
      [entity ++ ": " ++ priv_type ++ " should NOT be granted (found: " ++ found ++ ")"]
    | none => []
  | some ed =>
    match actual_depth with
    | none => [entity ++ ": " ++ priv_type ++ " should be " ++ ed ++ " (not granted)"]
    | some ad =>
      if ad ≠ ed then
        [entity ++ ": " ++ priv_type ++ " should be " ++ ed ++ " (found: " ++ ad ++ ")"]
      else []

/-- `verify_role(role_name, actual, expected)` (lines 168–217):
role not found → failure; otherwise collect issues over the expected
configuration and pass iff there are none. -/
def verify_role (role_name : String) (actual : Option ActualPrivs)
    (expected : ExpectedPrivs) : Bool × List String :=
  match actual with
  | none => (false, ["Role '" ++ role_name ++ "' not found"])
  | some act =>
    let issues := expected.foldl (fun issues ep =>
      let actual_entity := (dictGet act ep.1).getD []
      ep.2.foldl (fun issues pv =>
        issues ++ privIssue ep.1 pv.1 pv.2 (dictGet actual_entity pv.1)) issues) []
    (issues.isEmpty, issues)

/-- `EXPECTED_ROLES["ELM Requester"]`. -/
def ELM_REQUESTER_EXPECTED : ExpectedPrivs :=
  [("fsi_environmentrequest",
    [("Create", some "User"), ("Read", some "User"), ("Write", some "User"),
     ("Delete", none), ("Append", some "User"), ("AppendTo", some "User")]),
   ("fsi_provisioninglog",
    [("Create", none), ("Read", some "User"), ("Write", none),
     ("Delete", none), ("Append", none), ("AppendTo", none)])]

/-- `EXPECTED_ROLES["ELM Approver"]`. -/
def ELM_APPROVER_EXPECTED : ExpectedPrivs :=
  [("fsi_environmentrequest",
    [("Create", none), ("Read", some "Business Unit"),
     ("Write", some "Business Unit"), ("Delete", none), ("Append", none),
     ("AppendTo", none)]),
   ("fsi_provisioninglog",
    [("Create", none), ("Read", some "Business Unit"), ("Write", none),
     ("Delete", none), ("Append", none), ("AppendTo", none)])]

/-- `EXPECTED_ROLES["ELM Admin"]` — Write and Delete on
`fsi_provisioninglog` must not be granted (immutability). -/
def ELM_ADMIN_EXPECTED : ExpectedPrivs :=
  [("fsi_environmentrequest",
    [("Create", some "Organization"), ("Read", some "Organization"),
     ("Write", some "Organization"), ("Delete", none),
     ("Append", some "Organization"), ("AppendTo", some "Organization")]),
   ("fsi_provisioninglog",
    [("Create", some "Organization"), ("Read", some "Organization"),
     ("Write", none), ("Delete", none), ("Append", none), ("AppendTo", none)])]

/-- `EXPECTED_ROLES["ELM Auditor"]`. -/
def ELM_AUDITOR_EXPECTED : ExpectedPrivs :=
  [("fsi_environmentrequest",
    [("Create", none), ("Read", some "Organization"), ("Write", none),
     ("Delete", none), ("Append", none), ("AppendTo", none)]),
   ("fsi_provisioninglog",
    [("Create", none), ("Read", some "Organization"), ("Write", none),
     ("Delete", none), ("Append", none), ("AppendTo", none)])]

/-- `EXPECTED_ROLES` (lines 20–93). -/
def EXPECTED_ROLES : List (String × ExpectedPrivs) :=
  [("ELM Requester", ELM_REQUESTER_EXPECTED),
   ("ELM Approver", ELM_APPROVER_EXPECTED),
   ("ELM Admin", ELM_ADMIN_EXPECTED),
   ("ELM Auditor", ELM_AUDITOR_EXPECTED)]

/-! ## Exit codes of the CLI entry points -/

/-- How a script run can end before reaching its result logic:
`argError` is `parser.error` (argparse exits with code 2); `exception`
is the generic `except Exception` handler; `ran` carries the data the
exit decision is made from. -/
inductive ScriptOutcome (α : Type) where
  | argError
  | exception
  | ran (a : α)

/-- The summary data of `validate_immutability.py` `main`
(lines 218–266): counts of update audit entries, delete audit entries,
records with missing fields, orphaned records. -/
structure ImmutabilitySummary where
  updateAttempts : Nat
  deleteAttempts : Nat
  incompleteRecords : Nat
  orphanedRecords : Nat

/-- The exit decision of `validate_immutability.py` on a completed run:
violations → 3; integrity issues → 3; else 0. -/
def validate_immutability_result_exit (r : ImmutabilitySummary) : Nat :=
  if r.updateAttempts > 0 || r.deleteAttempts > 0 then 3
  else if r.incompleteRecords + r.orphanedRecords > 0 then 3
  else 0

/-- Process exit code of `validate_immutability.py` `main`. -/
def validate_immutability_exitcode : ScriptOutcome ImmutabilitySummary → Nat
  | .argError => 2
  | .exception => 1
  | .ran r => validate_immutability_result_exit r

/-- Process exit code of `verify_role_privileges.py` `main`
(line 351: `sys.exit(0 if all_passed else 3)`). -/
def verify_role_privileges_exitcode : ScriptOutcome Bool → Nat
  | .argError => 2
  | .exception => 1
  | .ran all_passed => if all_passed then 0 else 3

/-- How `elm_client.py` `main` can end (lines 685–711). -/
inductive ElmClientOutcome where
  | argError
  | success
  | httpError
  | authError
  | otherError

/-- Process exit code of `elm_client.py` `main`: success → 0,
`requests.HTTPError` → 2, `RuntimeError` (authentication) → 1, any
other exception → 4. -/
def elm_client_exitcode : ElmClientOutcome → Nat
  | .argError => 2
  | .success => 0
  | .httpError => 2
  | .authError => 1
  | .otherError => 4

/-! ## Concrete instances used by witnesses and counterexamples -/

/-- A concrete hook configuration (the roots are environment-derived at
module load). -/
def demo_boundary_cfg : BoundaryConfig :=
  { projectRoot := "/home/dev/FSI-AgentGov-Solutions"
    frameworkRoot := "/home/dev/FSI-AgentGov"
    claudeGlobalDir := "/home/dev/.claude" }

/-- A server that answers 429 (`Retry-After: 5`) twice, then 200. -/
def c3_responses : Nat → HttpResponse := fun i =>
  if i < 2 then { status := 429, retryAfter := some 5 }
  else { status := 200, retryAfter := none }

/-- Concrete export arguments used by the witnesses. -/
def demo_export_args : ExportArgs :=
  { environmentUrl := "https://org.crm.dynamics.com", startDate := "2026-01-01",
    endDate := "2026-03-31", startMonth := 1, startYear := 2026 }

/-- Actual privileges matching the expected ELM Admin configuration. -/
def elm_admin_actual_demo : ActualPrivs :=
  [("fsi_environmentrequest",
    [("Create", "Organization"), ("Read", "Organization"),
     ("Write", "Organization"), ("Append", "Organization"),
     ("AppendTo", "Organization")]),
   ("fsi_provisioninglog", [("Create", "Organization"), ("Read", "Organization")])]

/-! ## Helper lemmas about the schema deployment loops -/

theorem create_optionsets_loop_dry (names : List String) (s : DataverseState)
    (created : List String) :
    create_optionsets_loop true names s created = (s, created) := by
  induction names generalizing s created with
  | nil => rfl
  | cons m rest ih =>
    by_cases hm : get_global_optionset s m <;>
      simp [create_optionsets_loop, hm, ih]

theorem create_optionsets_loop_frame (dry : Bool) (names : List String)
    (s : DataverseState) (created : List String) :
    (create_optionsets_loop dry names s created).1.entities = s.entities ∧
    (create_optionsets_loop dry names s created).1.attributes = s.attributes := by
  induction names generalizing s created with
  | nil => exact ⟨rfl, rfl⟩
  | cons m rest ih =>
    by_cases hm : get_global_optionset s m
    · simpa [create_optionsets_loop, hm] using ih s created
    · cases dry with
      | true => simpa [create_optionsets_loop, hm] using ih s created
      | false =>
        simpa [create_optionsets_loop, hm, create_global_optionset] using
          ih (create_global_optionset s m) (created ++ [m])

theorem create_optionsets_loop_mem (names : List String) (s : DataverseState)
    (created : List String) (n : String)
    (h : n ∈ s.optionsets ∨ n ∈ names) :
    n ∈ (create_optionsets_loop false names s created).1.optionsets := by
  induction names generalizing s created with
  | nil => simpa using h
  | cons m rest ih =>
    by_cases hm : get_global_optionset s m
    · have hms : m ∈ s.optionsets := by
        simpa [get_global_optionset] using hm
      simp only [create_optionsets_loop, hm, if_true]
      apply ih
      rcases h with hs | hmem
      · exact Or.inl hs
      · rcases List.mem_cons.mp hmem with rfl | hr
        · exact Or.inl hms
        · exact Or.inr hr
    · simp only [create_optionsets_loop, hm, Bool.false_eq_true, if_false]
      apply ih
      rcases h with hs | hmem
      · exact Or.inl (by simp [create_global_optionset, hs])
      · rcases List.mem_cons.mp hmem with rfl | hr
        · exact Or.inl (by simp [create_global_optionset])
        · exact Or.inr hr

theorem create_optionsets_loop_all_present (names : List String)
    (s : DataverseState) (created : List String)
    (h : ∀ n ∈ names, n ∈ s.optionsets) :
    create_optionsets_loop false names s created = (s, created) := by
  induction names generalizing created with
  | nil => rfl
  | cons m rest ih =>
    have hm : get_global_optionset s m = true := by
      simp [get_global_optionset, h m (by simp)]
    simp only [create_optionsets_loop, hm, if_true]
    exact ih created (fun n hn => h n (by simp [hn]))

theorem create_tables_step_dry (name : String) (acc : DataverseState × List String) :
    create_tables_step true name acc = acc := by
  unfold create_tables_step
  split_ifs with h1 h2
  · rfl
  · rfl
  · exact absurd rfl h2

theorem create_tables_step_present (name : String) (acc : DataverseState × List String)
    (h : name ∈ acc.1.entities) :
    create_tables_step false name acc = acc := by
  have hm : get_entity_metadata acc.1 name = true := by
    simp [get_entity_metadata, h]
  simp [create_tables_step, hm]

theorem create_tables_step_mem (name n : String) (acc : DataverseState × List String)
    (h : n ∈ acc.1.entities ∨ n = name) :
    n ∈ (create_tables_step false name acc).1.entities := by
  by_cases hm : get_entity_metadata acc.1 name
  · have hms : name ∈ acc.1.entities := by
      simpa [get_entity_metadata] using hm
    simp only [create_tables_step, hm, if_true]
    rcases h with hs | rfl
    · exact hs
    · exact hms
  · simp only [create_tables_step, hm, Bool.false_eq_true, if_false]
    rcases h with hs | rfl
    · simp [create_entity, hs]
    · simp [create_entity]

theorem create_tables_step_frame (dry : Bool) (name : String)
    (acc : DataverseState × List String) :
    (create_tables_step dry name acc).1.optionsets = acc.1.optionsets ∧
    (create_tables_step dry name acc).1.attributes = acc.1.attributes := by
  unfold create_tables_step
  split_ifs <;> exact ⟨rfl, rfl⟩

theorem create_columns_loop_dry (entity : String) (cols : List String)
    (s : DataverseState) (created : List (String × String)) :
    create_columns_loop true entity cols s created = (s, created) := by
  induction cols generalizing s created with
  | nil => rfl
  | cons c rest ih =>
    by_cases hc : get_attribute_metadata s entity c <;>
      simp [create_columns_loop, hc, ih]

theorem create_columns_loop_frame (dry : Bool) (entity : String) (cols : List String)
    (s : DataverseState) (created : List (String × String)) :
    (create_columns_loop dry entity cols s created).1.optionsets = s.optionsets ∧
    (create_columns_loop dry entity cols s created).1.entities = s.entities := by
  induction cols generalizing s created with
  | nil => exact ⟨rfl, rfl⟩
  | cons c rest ih =>
    by_cases hc : get_attribute_metadata s entity c
    · simpa [create_columns_loop, hc] using ih s created
    · cases dry with
      | true => simpa [create_columns_loop, hc] using ih s created
      | false =>
        simpa [create_columns_loop, hc, create_attribute] using
          ih (create_attribute s entity c) (created ++ [(entity, c)])

theorem create_columns_loop_mem (entity : String) (cols : List String)
    (s : DataverseState) (created : List (String × String)) (e c : String)
    (h : (e, c) ∈ s.attributes ∨ (e = entity ∧ c ∈ cols)) :
    (e, c) ∈ (create_columns_loop false entity cols s created).1.attributes := by
  induction cols generalizing s created with
  | nil =>
    rcases h with hs | ⟨_, hc⟩
    · simpa using hs
    · simp at hc
  | cons m rest ih =>
    by_cases hm : get_attribute_metadata s entity m
    · have hms : (entity, m) ∈ s.attributes := by
        simpa [get_attribute_metadata] using hm
      simp only [create_columns_loop, hm, if_true]
      apply ih
      rcases h with hs | ⟨rfl, hmem⟩
      · exact Or.inl hs
      · rcases List.mem_cons.mp hmem with rfl | hr
        · exact Or.inl hms
        · exact Or.inr ⟨rfl, hr⟩
    · simp only [create_columns_loop, hm, Bool.false_eq_true, if_false]
      apply ih
      rcases h with hs | ⟨rfl, hmem⟩
      · exact Or.inl (by simp [create_attribute, hs])
      · rcases List.mem_cons.mp hmem with rfl | hr
        · exact Or.inl (by simp [create_attribute])
        · exact Or.inr ⟨rfl, hr⟩

theorem create_columns_loop_all_present (entity : String) (cols : List String)
    (s : DataverseState) (created : List (String × String))
    (h : ∀ c ∈ cols, (entity, c) ∈ s.attributes) :
    create_columns_loop false entity cols s created = (s, created) := by
  induction cols generalizing created with
  | nil => rfl
  | cons m rest ih =>
    have hm : get_attribute_metadata s entity m = true := by
      simp [get_attribute_metadata, h m (by simp)]
    simp only [create_columns_loop, hm, if_true]
    exact ih created (fun c hc => h c (by simp [hc]))

theorem create_tables_frame (dry : Bool) (s : DataverseState) :
    (create_tables s dry).1.optionsets = s.optionsets ∧
    (create_tables s dry).1.attributes = s.attributes := by
  unfold create_tables
  have h1 := create_tables_step_frame dry "fsi_environmentrequest" (s, [])
  have h2 := create_tables_step_frame dry "fsi_provisioninglog"
    (create_tables_step dry "fsi_environmentrequest" (s, []))
  exact ⟨h2.1.trans h1.1, h2.2.trans h1.2⟩

theorem create_columns_frame (dry : Bool) (s : DataverseState) :
    (create_columns s dry).1.optionsets = s.optionsets ∧
    (create_columns s dry).1.entities = s.entities := by
  simp only [create_columns]
  have h1 := create_columns_loop_frame dry "fsi_environmentrequest" ER_COLUMN_NAMES s []
  have h2 := create_columns_loop_frame dry "fsi_provisioninglog" PL_COLUMN_NAMES
    (create_columns_loop dry "fsi_environmentrequest" ER_COLUMN_NAMES s []).1
    (create_columns_loop dry "fsi_environmentrequest" ER_COLUMN_NAMES s []).2
  exact ⟨h2.1.trans h1.1, h2.2.trans h1.2⟩

theorem create_tables_entities_mem (s : DataverseState) :
    "fsi_environmentrequest" ∈ (create_tables s false).1.entities ∧
    "fsi_provisioninglog" ∈ (create_tables s false).1.entities := by
  unfold create_tables
  constructor
  · exact create_tables_step_mem _ _ _
      (Or.inl (create_tables_step_mem _ _ _ (Or.inr rfl)))
  · exact create_tables_step_mem _ _ _ (Or.inr rfl)

theorem create_columns_attr_mem (s : DataverseState) :
    (∀ c ∈ ER_COLUMN_NAMES,
      ("fsi_environmentrequest", c) ∈ (create_columns s false).1.attributes) ∧
    (∀ c ∈ PL_COLUMN_NAMES,
      ("fsi_provisioninglog", c) ∈ (create_columns s false).1.attributes) := by
  simp only [create_columns]
  constructor
  · intro c hc
    exact create_columns_loop_mem _ _ _ _ _ _
      (Or.inl (create_columns_loop_mem _ _ _ _ _ _ (Or.inr ⟨rfl, hc⟩)))
  · intro c hc
    exact create_columns_loop_mem _ _ _ _ _ _ (Or.inr ⟨rfl, hc⟩)

/-- After one non-dry `create_schema` run, every resource the procedure
ensures is present in the remote state. -/
theorem create_schema_establishes (s : DataverseState) :
    (∀ n ∈ OPTIONSET_NAMES, n ∈ (create_schema s false).1.optionsets) ∧
    "fsi_environmentrequest" ∈ (create_schema s false).1.entities ∧
    "fsi_provisioninglog" ∈ (create_schema s false).1.entities ∧
    (∀ c ∈ ER_COLUMN_NAMES,
      ("fsi_environmentrequest", c) ∈ (create_schema s false).1.attributes) ∧
    (∀ c ∈ PL_COLUMN_NAMES,
      ("fsi_provisioninglog", c) ∈ (create_schema s false).1.attributes) := by
  simp only [create_schema]
  refine ⟨?_, ?_, ?_, ?_, ?_⟩
  · intro n hn
    have h1 : n ∈ (create_optionsets s false).1.optionsets :=
      create_optionsets_loop_mem _ _ _ _ (Or.inr hn)
    have h2 := (create_tables_frame false (create_optionsets s false).1).1
    have h3 := (create_columns_frame false (create_tables (create_optionsets s false).1 false).1).1
    rw [h3, h2]
    exact h1
  · have h2 := (create_tables_entities_mem (create_optionsets s false).1).1
    have h3 := (create_columns_frame false (create_tables (create_optionsets s false).1 false).1).2
    rw [h3]
    exact h2
  · have h2 := (create_tables_entities_mem (create_optionsets s false).1).2
    have h3 := (create_columns_frame false (create_tables (create_optionsets s false).1 false).1).2
    rw [h3]
    exact h2
  · exact (create_columns_attr_mem (create_tables (create_optionsets s false).1 false).1).1
  · exact (create_columns_attr_mem (create_tables (create_optionsets s false).1 false).1).2

/-- A state that already holds every resource is a fixed point of
`create_schema`, with nothing created. -/
theorem create_schema_fixed_point (t : DataverseState)
    (ho : ∀ n ∈ OPTIONSET_NAMES, n ∈ t.optionsets)
    (her : "fsi_environmentrequest" ∈ t.entities)
    (hpl : "fsi_provisioninglog" ∈ t.entities)
    (hec : ∀ c ∈ ER_COLUMN_NAMES, ("fsi_environmentrequest", c) ∈ t.attributes)
    (hpc : ∀ c ∈ PL_COLUMN_NAMES, ("fsi_provisioninglog", c) ∈ t.attributes) :
    create_schema t false = (t, ⟨[], [], []⟩) := by
  have ho' : create_optionsets t false = (t, []) :=
    create_optionsets_loop_all_present _ _ _ ho
  have ht' : create_tables t false = (t, []) := by
    unfold create_tables
    rw [create_tables_step_present "fsi_environmentrequest" (t, []) her,
      create_tables_step_present "fsi_provisioninglog" (t, []) hpl]
  have e1 : create_columns_loop false "fsi_environmentrequest" ER_COLUMN_NAMES t [] = (t, []) :=
    create_columns_loop_all_present _ _ _ _ hec
  have e2 : create_columns_loop false "fsi_provisioninglog" PL_COLUMN_NAMES t [] = (t, []) :=
    create_columns_loop_all_present _ _ _ _ hpc
  have hc' : create_columns t false = (t, []) := by
    simp only [create_columns]
    rw [e1]
    simpa using e2
  simp [create_schema, ho', ht', hc']

/-! ## Claim theorems -/

/-- C8: when dry-run mode is enabled the deployment procedure issues no
create calls: `create_optionsets`, `create_tables`, `create_columns` and
the whole `create_schema` report an empty created-list and leave the
remote state completely unchanged. -/
theorem dry_run_makes_no_changes (s : DataverseState) :
    create_optionsets s true = (s, []) ∧
    create_tables s true = (s, []) ∧
    create_columns s true = (s, []) ∧
    create_schema s true = (s, ⟨[], [], []⟩) := by
  have ho : create_optionsets s true = (s, []) :=
    create_optionsets_loop_dry _ _ _
  have ht : create_tables s true = (s, []) := by
    unfold create_tables
    rw [create_tables_step_dry, create_tables_step_dry]
  have e1 : create_columns_loop true "fsi_environmentrequest" ER_COLUMN_NAMES s [] = (s, []) :=
    create_columns_loop_dry _ _ _ _
  have e2 : create_columns_loop true "fsi_provisioninglog" PL_COLUMN_NAMES s [] = (s, []) :=
    create_columns_loop_dry _ _ _ _
  have hc : create_columns s true = (s, []) := by
    simp only [create_columns]
    rw [e1]
    simpa using e2
  exact ⟨ho, ht, hc, by simp [create_schema, ho, ht, hc]⟩

/-- C1: every deployment step is idempotent.  When the lookup by natural
key finds the resource, the step issues no create call and leaves the
remote state unchanged (`get_or_create_publisher` by customization
prefix, `create_table` by logical name, `create_optionsets` by option
set name); consequently a second run of the deployment procedure against
the state produced by a first run creates zero additional resources and
yields an identical final state. -/
theorem deployment_steps_idempotent (s : DataverseState) (m : McgState)
    (newId newId2 tbl : String) :
    (∀ p, m.publishers.find? (fun q => q.1 = MCG_PUBLISHER_PREFIX) = some p →
        get_or_create_publisher newId m = (m, p.2, false)) ∧
    (tbl ∈ m.entityDefs → mcg_create_table tbl m = (m, false)) ∧
    ((∀ n ∈ OPTIONSET_NAMES, n ∈ s.optionsets) →
        create_optionsets s false = (s, [])) ∧
    (create_schema (create_schema s false).1 false =
        ((create_schema s false).1, ⟨[], [], []⟩)) ∧
    (get_or_create_publisher newId2 (get_or_create_publisher newId m).1 =
        ((get_or_create_publisher newId m).1,
         (get_or_create_publisher newId m).2.1, false)) ∧
    (mcg_create_table tbl (mcg_create_table tbl m).1 =
        ((mcg_create_table tbl m).1, false)) := by
  refine ⟨?_, ?_, ?_, ?_, ?_, ?_⟩
  · intro p hp
    unfold get_or_create_publisher
    rw [hp]
  · intro h
    unfold mcg_create_table
    simp [h]
  · intro h
    exact create_optionsets_loop_all_present _ _ _ h
  · obtain ⟨ho, her, hpl, hec, hpc⟩ := create_schema_establishes s
    exact create_schema_fixed_point _ ho her hpl hec hpc
  · unfold get_or_create_publisher
    cases hf : m.publishers.find? (fun q => q.1 = MCG_PUBLISHER_PREFIX) with
    | some p => simp [hf]
    | none =>
      simp only [hf, List.find?_append, List.find?_cons, List.find?_nil]
      simp [MCG_PUBLISHER_PREFIX]
  · unfold mcg_create_table
    by_cases h : tbl ∈ m.entityDefs
    · simp [h]
    · simp [h]

/-- Witness for C1: concrete states where the lookups find the
resources, so the steps skip creation and leave everything unchanged. -/
theorem deployment_steps_idempotent_witness :
    get_or_create_publisher "new-guid"
        ⟨[("mcg", "pub-guid-1")], ["mcg_change"]⟩ =
      (⟨[("mcg", "pub-guid-1")], ["mcg_change"]⟩, "pub-guid-1", false) ∧
    mcg_create_table "mcg_change" ⟨[("mcg", "pub-guid-1")], ["mcg_change"]⟩ =
      (⟨[("mcg", "pub-guid-1")], ["mcg_change"]⟩, false) ∧
    create_optionsets ⟨OPTIONSET_NAMES, [], []⟩ false =
      (⟨OPTIONSET_NAMES, [], []⟩, []) := by
  have h := deployment_steps_idempotent ⟨OPTIONSET_NAMES, [], []⟩
    ⟨[("mcg", "pub-guid-1")], ["mcg_change"]⟩ "new-guid" "other-guid" "mcg_change"
  exact ⟨h.1 ("mcg", "pub-guid-1") (by decide), h.2.1 (by decide),
    h.2.2.1 (by decide)⟩

/-- C2 counterexample: `cat /etc/passwd` contains an absolute path
outside every configured root and matches no safe pattern, yet
`check_command` returns allow through the fail-open default — the
claim's "returns block" half is false on the code. -/
theorem boundary_filter_block_counterexample :
    containsDisallowedAbsolutePath demo_boundary_cfg "cat /etc/passwd" = true ∧
    matchesSafePattern (pyLower "cat /etc/passwd") = false ∧
    riskyReport (pyLower "cat /etc/passwd") = none ∧
    check_command demo_boundary_cfg "cat /etc/passwd" =
      (true, "Command allowed by default") :=
  ⟨rfl, rfl, rfl, rfl⟩

/-- C2 (amended): on a non-Windows platform `check_command` blocks
exactly the commands matching a hazardous pattern (excessive
parent-directory traversal, recursive delete from the filesystem root);
every other command is allowed — in particular every command operating
purely on relative paths, but also, fail-open, commands containing
absolute paths outside the configured roots. -/
theorem check_command_blocks_only_risky (cfg : BoundaryConfig) (command : String) :
    (∀ reason, riskyReport (pyLower command) = some reason →
        check_command cfg command = (false, reason)) ∧
    (riskyReport (pyLower command) = none → (check_command cfg command).1 = true) := by
  constructor
  · intro reason h
    unfold check_command
    dsimp only
    rw [h]
  · intro h
    unfold check_command
    dsimp only
    rw [h]
    split_ifs <;> rfl

/-- Witness for C2 (amended): a relative-path command is allowed, a
recursive delete from root is blocked. -/
theorem check_command_blocks_only_risky_witness :
    (check_command demo_boundary_cfg "wc -l notes.txt").1 = true ∧
    check_command demo_boundary_cfg "rm -rf /" =
      (false, "Recursive delete from root") :=
  ⟨(check_command_blocks_only_risky demo_boundary_cfg "wc -l notes.txt").2 (by decide),
   (check_command_blocks_only_risky demo_boundary_cfg "rm -rf /").1
     "Recursive delete from root" (by decide)⟩

/-- C10: the pipeline-governance-cleanup boundary hook prints decision
allow and exits 0 for every possible input; it never blocks. -/
theorem pgc_hook_always_allows (stdin_data : String) :
    pgc_boundary_hook_main stdin_data = ("\x7b\"decision\": \"allow\"\x7d", 0) := rfl

/-- C3: `_request` returns the first non-429 response within the
three-attempt bound, sleeping the server-specified `Retry-After`
(default 30) after each 429, and raises the rate-limit error after
three consecutive 429 responses. -/
theorem rate_limit_retry_bounded (responses : Nat → HttpResponse) :
    (∀ k, k < 3 → (∀ j, j < k → (responses j).status = 429) →
        (responses k).status ≠ 429 →
        dataverse_request responses =
          .ok (responses k,
            (List.range k).map (fun j => (responses j).retryAfter.getD 30))) ∧
    ((∀ j, j < 3 → (responses j).status = 429) →
        dataverse_request responses =
          .error "Max retries exceeded due to rate limiting") := by
  constructor
  · intro k hk h429 hne
    interval_cases k
    · simp [dataverse_request, request_attempts, hne]
    · have h0 := h429 0 (by norm_num)
      simp [dataverse_request, request_attempts, h0, hne, List.range_succ]
    · have h0 := h429 0 (by norm_num)
      have h1 := h429 1 (by norm_num)
      simp [dataverse_request, request_attempts, h0, h1, hne, List.range_succ]
  · intro hall
    have h0 := hall 0 (by norm_num)
    have h1 := hall 1 (by norm_num)
    have h2 := hall 2 (by norm_num)
    simp [dataverse_request, request_attempts, h0, h1, h2]

/-- Witness for C3: two 429s then a 200 gives the 200 after two
5-second waits. -/
theorem rate_limit_retry_bounded_witness :
    dataverse_request c3_responses =
      .ok ({ status := 200, retryAfter := none }, [5, 5]) := by
  have h := (rate_limit_retry_bounded c3_responses).1 2 (by norm_num)
    (fun j hj => by interval_cases j <;> rfl) (by decide)
  simpa [c3_responses, List.range_succ] using h

/-- C7 counterexample: `elm_client.py` exits with code 4 on an
unexpected error — neither 0, nor within 1–2, nor 3 — refuting the
claim that no other exit codes are produced. -/
theorem exit_code_counterexample :
    elm_client_exitcode .otherError = 4 ∧
    ¬(elm_client_exitcode .otherError = 0 ∨
      (1 ≤ elm_client_exitcode .otherError ∧ elm_client_exitcode .otherError ≤ 2) ∨
      elm_client_exitcode .otherError = 3) := by
  decide

/-- C7 (amended): `validate_immutability.py` and
`verify_role_privileges.py` exit with 0 on success, 2 on argument
validation failure, 1 on runtime/authentication failure, and 3 exactly
on a policy violation; `elm_client.py` follows the same scheme for
0/1/2 but exits 4 on unexpected errors. -/
theorem exit_codes_amended :
    (∀ o, validate_immutability_exitcode o ∈ ([0, 1, 2, 3] : List Nat)) ∧
    (∀ o, verify_role_privileges_exitcode o ∈ ([0, 1, 2, 3] : List Nat)) ∧
    (∀ o, elm_client_exitcode o ∈ ([0, 1, 2, 4] : List Nat)) ∧
    (∀ r, validate_immutability_exitcode (.ran r) = 3 ↔
        (0 < r.updateAttempts ∨ 0 < r.deleteAttempts ∨
         0 < r.incompleteRecords + r.orphanedRecords)) ∧
    (∀ b, verify_role_privileges_exitcode (.ran b) = 3 ↔ b = false) := by
  refine ⟨?_, ?_, ?_, ?_, ?_⟩
  · rintro (_ | _ | r)
    · simp [validate_immutability_exitcode]
    · simp [validate_immutability_exitcode]
    · simp only [validate_immutability_exitcode, validate_immutability_result_exit]
      split_ifs <;> simp
  · rintro (_ | _ | b)
    · simp [verify_role_privileges_exitcode]
    · simp [verify_role_privileges_exitcode]
    · cases b <;> simp [verify_role_privileges_exitcode]
  · rintro (_ | _ | _ | _ | _) <;> simp [elm_client_exitcode]
  · intro r
    simp only [validate_immutability_exitcode, validate_immutability_result_exit]
    split_ifs with h1 h2 <;> simp_all
    omega
  · intro b
    cases b <;> simp [verify_role_privileges_exitcode]

/-- C4: with zero matching records the export still writes the
serialization of the empty JSON array (`"[]"`), records the file in the
manifest with recordCount 0 and isEmpty true, and exits 0. -/
theorem export_empty_table_flagged_success (sha256hex : String → String)
    (exportDate : String) (args : ExportArgs) (logs_data : List PyJson) :
    (export_quarterly_main sha256hex exportDate args [] logs_data).requestsContent =
      pyDumps (some 2) (.arr []) ∧
    (export_quarterly_main sha256hex exportDate args [] logs_data).requestsContent = "[]" ∧
    (export_quarterly_main sha256hex exportDate args [] logs_data).requestsEntry.recordCount = 0 ∧
    (export_quarterly_main sha256hex exportDate args [] logs_data).requestsEntry.isEmpty = true ∧
    objGet (export_quarterly_main sha256hex exportDate args [] logs_data).manifestBase "files" =
      some (.arr
        [fileEntryJson (export_quarterly_main sha256hex exportDate args [] logs_data).requestsEntry,
         fileEntryJson (export_quarterly_main sha256hex exportDate args [] logs_data).logsEntry]) ∧
    (export_quarterly_main sha256hex exportDate args [] logs_data).exitCode = 0 :=
  ⟨rfl, rfl, rfl, rfl, rfl, rfl⟩

/-- C5: exporting the same record sets (same records, same order, same
field order) yields byte-identical serialized JSON and therefore
identical content hashes for each exported file, independently of the
run timestamp. -/
theorem export_hashes_deterministic (sha256hex : String → String)
    (d1 d2 : String) (args : ExportArgs)
    (reqs1 logs1 reqs2 logs2 : List PyJson)
    (hreq : reqs1 = reqs2) (hlogs : logs1 = logs2) :
    (export_quarterly_main sha256hex d1 args reqs1 logs1).requestsContent =
      (export_quarterly_main sha256hex d2 args reqs2 logs2).requestsContent ∧
    (export_quarterly_main sha256hex d1 args reqs1 logs1).requestsHash =
      (export_quarterly_main sha256hex d2 args reqs2 logs2).requestsHash ∧
    (export_quarterly_main sha256hex d1 args reqs1 logs1).logsContent =
      (export_quarterly_main sha256hex d2 args reqs2 logs2).logsContent ∧
    (export_quarterly_main sha256hex d1 args reqs1 logs1).logsHash =
      (export_quarterly_main sha256hex d2 args reqs2 logs2).logsHash := by
  subst hreq hlogs
  exact ⟨rfl, rfl, rfl, rfl⟩

/-- Witness for C5: two runs at different timestamps over the same
record set give the same file hash. -/
theorem export_hashes_deterministic_witness :
    (export_quarterly_main id "2026-04-01T00:00:00Z" demo_export_args
        [PyJson.obj [("fsi_requestnumber", PyJson.str "REQ-00001")]] []).requestsHash =
    (export_quarterly_main id "2026-04-02T12:34:56Z" demo_export_args
        [PyJson.obj [("fsi_requestnumber", PyJson.str "REQ-00001")]] []).requestsHash :=
  (export_hashes_deterministic id "2026-04-01T00:00:00Z" "2026-04-02T12:34:56Z"
      demo_export_args _ _ _ _ rfl rfl).2.1

/-- C9: the `manifestHash` stored in `manifest.json` is the hash of the
manifest serialization computed before the `manifestHash` key is
inserted; the written file is the serialization after insertion, so for
an injective hash primitive the stored value is not the hash of the
written file whenever the two serializations differ. -/
theorem manifest_hash_excludes_own_field (sha256hex : String → String)
    (exportDate : String) (args : ExportArgs) (reqs logs : List PyJson) :
    (export_quarterly_main sha256hex exportDate args reqs logs).manifestStoredHash =
      sha256hex (pyDumps (some 2)
        (export_quarterly_main sha256hex exportDate args reqs logs).manifestBase) ∧
    (export_quarterly_main sha256hex exportDate args reqs logs).manifestContent =
      pyDumps (some 2) (objSetNew
        (export_quarterly_main sha256hex exportDate args reqs logs).manifestBase
        "manifestHash"
        (.str (export_quarterly_main sha256hex exportDate args reqs logs).manifestStoredHash)) ∧
    (Function.Injective sha256hex →
      (export_quarterly_main sha256hex exportDate args reqs logs).manifestContent ≠
        pyDumps (some 2)
          (export_quarterly_main sha256hex exportDate args reqs logs).manifestBase →
      (export_quarterly_main sha256hex exportDate args reqs logs).manifestStoredHash ≠
        sha256hex
          (export_quarterly_main sha256hex exportDate args reqs logs).manifestContent) := by
  refine ⟨rfl, rfl, fun hinj hne h => hne ?_⟩
  have h' : sha256hex (pyDumps (some 2)
        (export_quarterly_main sha256hex exportDate args reqs logs).manifestBase) =
      sha256hex
        (export_quarterly_main sha256hex exportDate args reqs logs).manifestContent := h
  exact (hinj h').symm

set_option maxRecDepth 20000 in
/-- Witness for C9 at a concrete input with the identity as hash
primitive: the stored hash differs from the hash of the written file. -/
theorem manifest_hash_excludes_own_field_witness :
    (export_quarterly_main id "" ⟨"", "", "", 1, 2026⟩ [] []).manifestStoredHash ≠
      id ((export_quarterly_main id "" ⟨"", "", "", 1, 2026⟩ [] []).manifestContent) :=
  (manifest_hash_excludes_own_field id "" ⟨"", "", "", 1, 2026⟩ [] []).2.2
    (fun _ _ h => h) (by decide)

theorem foldl_append_eq {β : Type} (g : β → List String) (l : List β)
    (init : List String) :
    l.foldl (fun acc x => acc ++ g x) init = init ++ l.flatMap g := by
  induction l generalizing init with
  | nil => simp
  | cons x xs ih => simp [ih, List.append_assoc]

theorem privIssue_eq_nil (entity priv_type : String) (ed ad : Option String) :
    privIssue entity priv_type ed ad = [] ↔ ad = ed := by
  cases ed with
  | none => cases ad <;> simp [privIssue]
  | some e =>
    cases ad with
    | none => simp [privIssue]
    | some a => by_cases h : a = e <;> simp [privIssue, h]

/-- `verify_role` on a found role passes exactly when, for every entity
and privilege type in the expected configuration, the actual depth
equals the expected one (absent matching `None`). -/
theorem verify_role_some_passed (role_name : String) (am : ActualPrivs)
    (expected : ExpectedPrivs) :
    (verify_role role_name (some am) expected).1 = true ↔
      ∀ ep ∈ expected, ∀ pv ∈ ep.2,
        dictGet ((dictGet am ep.1).getD []) pv.1 = pv.2 := by
  unfold verify_role
  dsimp only
  have hstep : (fun (issues : List String) (ep : String × ExpectedEntity) =>
      ep.2.foldl (fun issues pv =>
        issues ++ privIssue ep.1 pv.1 pv.2 (dictGet ((dictGet am ep.1).getD []) pv.1)) issues) =
      (fun issues ep => issues ++ ep.2.flatMap (fun pv =>
        privIssue ep.1 pv.1 pv.2 (dictGet ((dictGet am ep.1).getD []) pv.1))) := by
    funext issues ep
    exact foldl_append_eq _ _ _
  rw [hstep, foldl_append_eq, List.nil_append, List.isEmpty_iff,
    List.flatMap_eq_nil_iff]
  constructor
  · intro h ep hep pv hpv
    exact (privIssue_eq_nil _ _ _ _).mp
      (List.flatMap_eq_nil_iff.mp (h ep hep) pv hpv)
  · intro h ep hep
    rw [List.flatMap_eq_nil_iff]
    intro pv hpv
    exact (privIssue_eq_nil _ _ _ _).mpr (h ep hep pv hpv)

/-- C6: `verify_role` passes iff every expected privilege matches: a
privilege expected `None` must be absent, a privilege with an expected
depth must be present at exactly that depth; in particular a passing
ELM Admin check implies the actual privileges contain neither Write nor
Delete on `fsi_provisioninglog`. -/
theorem verify_role_passes_iff (role_name : String) (am : ActualPrivs)
    (expected : ExpectedPrivs) :
    ((verify_role role_name (some am) expected).1 = true ↔
      ∀ ep ∈ expected, ∀ pv ∈ ep.2,
        dictGet ((dictGet am ep.1).getD []) pv.1 = pv.2) ∧
    ((verify_role "ELM Admin" (some am) ELM_ADMIN_EXPECTED).1 = true →
      dictGet ((dictGet am "fsi_provisioninglog").getD []) "Write" = none ∧
      dictGet ((dictGet am "fsi_provisioninglog").getD []) "Delete" = none) := by
  refine ⟨verify_role_some_passed role_name am expected, fun hpass => ?_⟩
  have h := (verify_role_some_passed "ELM Admin" am ELM_ADMIN_EXPECTED).mp hpass
  have hpl := h ("fsi_provisioninglog",
    [("Create", some "Organization"), ("Read", some "Organization"),
     ("Write", none), ("Delete", none), ("Append", none), ("AppendTo", none)])
    (by simp [ELM_ADMIN_EXPECTED])
  exact ⟨hpl ("Write", none) (by simp), hpl ("Delete", none) (by simp)⟩

/-- Witness for C6: on a conforming actual configuration the ELM Admin
check passes, and indeed neither Write nor Delete is granted on
`fsi_provisioninglog`. -/
theorem verify_role_passes_iff_witness :
    dictGet ((dictGet elm_admin_actual_demo "fsi_provisioninglog").getD []) "Write" = none ∧
    dictGet ((dictGet elm_admin_actual_demo "fsi_provisioninglog").getD []) "Delete" = none :=
  (verify_role_passes_iff "ELM Admin" elm_admin_actual_demo ELM_ADMIN_EXPECTED).2
    (by decide)

end FSIAgentGov
